import Mathlib

/-!
Verification of the pymysqlpool repository against its natural-language
specification.  The development shallowly embeds the pool code:

* `PyMySQLPool.ConnectionPy` embeds the manager in connection.py
  (construction, borrow with auto-resize, return, close, the scoped
  helpers) and the trace semantics of its context managers;
* `PyMySQLPool.PoolPy` embeds the legacy manager in pool.py, including
  the Python semantics of concatenating a deque with a list;
* `PyMySQLPool.ContainerPy` embeds the stub container in container.py;
* `PyMySQLPool.SpecContainer` models the missing working container
  (connection.py and the tests call add/get/return_ on a container whose
  implementation is absent from the sources) from the specification.

Machine integers are embedded as Int (Python integers are unbounded);
the float configuration value auto_resize_scale is embedded as Rat with
the Python banker rounding of round(x, 0) made explicit.
-/

namespace PyMySQLPool

/-- Python exception classes raised by the pool code: builtin TypeError,
ValueError, ImportError, AttributeError, and the pool specific
PoolIsFullException, PoolIsEmptyException, PoolBoundaryExceedsError and
NoFreeConnectionFoundError (NoFreeConnectionError in pool.py). -/
inductive PyError
  | typeError
  | valueError
  | importError
  | attributeError
  | poolIsFull
  | poolIsEmpty
  | poolBoundaryExceeds
  | noFreeConnectionFound
  deriving DecidableEq

/-- Python round(q, 0) followed by int(...): round half to even on the
exact value, as CPython does for floats whose value is exactly q.  The
fractional part r = q - floor q equals t / den with
t = num - floor q * den, so the comparisons of r with one half are the
comparisons of 2 * t with den. -/
def pyRound (q : ℚ) : ℤ :=
  let f : ℤ := q.floor
  let t : ℤ := q.num - f * (q.den : ℤ)
  if 2 * t < (q.den : ℤ) then f
  else if (q.den : ℤ) < 2 * t then f + 1
  else if f % 2 = 0 then f else f + 1

theorem pyRound_ge_floor (q : ℚ) : q.floor ≤ pyRound q := by
  unfold pyRound
  dsimp only
  split_ifs <;> omega

theorem one_le_pyRound (q : ℚ) (h : 1 ≤ q) : 1 ≤ pyRound q := by
  have hf : (1 : ℤ) ≤ q.floor := Rat.le_floor.mpr (by exact_mod_cast h)
  exact le_trans hf (pyRound_ge_floor q)

/-- Product of an integer with a rational, computed on numerator and
denominator.  The bridging lemma below shows it is the ordinary product
in ℚ. -/
def intMulRat (z : ℤ) (q : ℚ) : ℚ :=
  mkRat (z * q.num) q.den

theorem intMulRat_eq (z : ℤ) (q : ℚ) : intMulRat z q = (z : ℚ) * q := by
  unfold intMulRat
  rw [Rat.mkRat_eq_div]
  push_cast
  rw [mul_div_assoc, Rat.num_div_den]

namespace SpecContainer

/-- Modelled from the spec: the working pool container is missing from the
sources (container.py holds only a stub whose operations do nothing and
pool.py defines PoolContainer as an empty class), yet connection.py and
the tests call add, get, return_, pool_size and free_size on it.  This
structure follows spec section 4.1: a LIFO free queue (head is the most
recently freed entry), the busy entries, and the capacity ceiling.
Entries are identified by natural numbers. -/
structure Container where
  free : List ℕ
  busy : List ℕ
  maxPoolSize : ℤ
  deriving DecidableEq

/-- Modelled from the spec: size() counts all tracked entries. -/
def Container.poolSize (c : Container) : ℕ :=
  c.free.length + c.busy.length

/-- Modelled from the spec: free_size() counts the free entries. -/
def Container.freeSize (c : Container) : ℕ :=
  c.free.length

/-- Modelled from the spec: add registers a new entry as free, is a no-op
on an already tracked resource, and fails with PoolIsFullException when
the entry count has reached the ceiling. -/
def Container.add (c : Container) (conn : ℕ) : Except PyError Container :=
  if conn ∈ c.free ∨ conn ∈ c.busy then .ok c
  else if (c.poolSize : ℤ) ≥ c.maxPoolSize then .error .poolIsFull
  else .ok { c with free := conn :: c.free }

/-- Modelled from the spec: get removes one entry from the free queue
(LIFO) and marks it busy; with no free entry and no concurrent return, a
non-blocking get fails immediately and a blocking get fails once its
timeout elapses, both with PoolIsEmptyException.  In this sequential
embedding no concurrent return can occur, so both cases are the error. -/
def Container.get (c : Container) (_block : Bool) : Except PyError (ℕ × Container) :=
  match c.free with
  | [] => .error .poolIsEmpty
  | conn :: rest => .ok (conn, { c with free := rest, busy := conn :: c.busy })

/-- Modelled from the spec: return_ moves a currently busy entry back to
the head of the free queue and reports true; an untracked resource is
rejected with a logged warning, no state change, and reports false. -/
def Container.return_ (c : Container) (conn : ℕ) : Container × Bool :=
  if conn ∈ c.busy then
    ({ c with busy := c.busy.erase conn, free := conn :: c.free }, true)
  else (c, false)

end SpecContainer

namespace ConnectionPy

open SpecContainer

/-- Configuration arguments of MySQLConnectionPool.__init__ in
connection.py that the pool logic reads (connection parameters such as
host and credentials are only forwarded to the external factory). -/
structure PoolConfig where
  maxPoolSize : ℤ
  stepSize : ℤ
  enableAutoResize : Bool
  autoResizeScale : ℚ
  poolResizeBoundary : ℤ
  deriving DecidableEq

/-- State of a MySQLConnectionPool instance from connection.py: the
container, the mutable capacity configuration, the lifecycle flags, and
a counter supplying identifiers for freshly created connections. -/
structure Manager where
  container : Container
  maxPoolSize : ℤ
  stepSize : ℤ
  enableAutoResize : Bool
  autoResizeScale : ℤ
  poolResizeBoundary : ℤ
  isKilled : Bool
  isConnected : Bool
  nextConnId : ℕ
  deriving DecidableEq

/-- Embedding of MySQLConnectionPool.__init__ (connection.py lines
78-97, with defer_connect_pool): line 80 clamps the requested ceiling,
max_pool_size if max_pool_size < pool_resize_boundary else the
boundary. -/
def clampCeiling (cfg : PoolConfig) : ℤ :=
  if cfg.maxPoolSize < cfg.poolResizeBoundary then cfg.maxPoolSize
  else cfg.poolResizeBoundary

/-- Embedding of the body of MySQLConnectionPool.__init__ continued: a
scale below 1 raises ValueError (lines 84-86), the stored scale is
int(round(auto_resize_scale, 0)) (line 88), and the clamped ceiling is
handed to the container (line 90). -/
def mkManager (cfg : PoolConfig) : Except PyError Manager :=
  if cfg.autoResizeScale < 1 then .error .valueError
  else .ok
    { container := ⟨[], [], clampCeiling cfg⟩
      maxPoolSize := clampCeiling cfg
      stepSize := cfg.stepSize
      enableAutoResize := cfg.enableAutoResize
      autoResizeScale := pyRound cfg.autoResizeScale
      poolResizeBoundary := cfg.poolResizeBoundary
      isKilled := false
      isConnected := false
      nextConnId := 0 }

/-- Embedding of one iteration step of _extend_connection_pool
(connection.py lines 246-263): create a connection (the external factory
is assumed to succeed, yielding the next fresh identifier), add it to
the container; on PoolIsFullException raise PoolBoundaryExceedsError
when the pool size exceeds the boundary and otherwise stop early. -/
def extendLoop : ℕ → Manager → Except PyError Manager
  | 0, m => .ok m
  | n + 1, m =>
    match m.container.add m.nextConnId with
    | .ok c2 => extendLoop n { m with container := c2, nextConnId := m.nextConnId + 1 }
    | .error _ =>
      if (m.container.poolSize : ℤ) > m.poolResizeBoundary then
        .error .poolBoundaryExceeds
      else .ok { m with nextConnId := m.nextConnId + 1 }

/-- Embedding of _extend_connection_pool (connection.py lines 237-263):
the creation loop runs range(step_size) times. -/
def extendConnectionPool (m : Manager) : Except PyError Manager :=
  extendLoop m.stepSize.toNat m

/-- Embedding of connect (connection.py lines 157-176): idempotent; the
throwaway probe connection is an external effect assumed alive, after
which the connected flag is set and the initial fill runs. -/
def connect (m : Manager) : Except PyError Manager :=
  if m.isConnected then .ok m
  else extendConnectionPool { m with isConnected := true }

/-- Embedding of _borrow (connection.py lines 221-229): container.get,
catching PoolIsEmptyException as None; the liveness ping with reconnect
is an external effect assumed to succeed. -/
def borrowAux (m : Manager) (block : Bool) : Option (ℕ × Manager) :=
  match m.container.get block with
  | .error _ => none
  | .ok (conn, c2) => some (conn, { m with container := c2 })

/-- Embedding of the ceiling update of the auto-resize branch
(connection.py lines 212-217): multiply the ceiling by the stored
integer scale, clamp at the boundary, and push the new ceiling into the
container. -/
def newCeiling (m : Manager) : ℤ :=
  if m.maxPoolSize * m.autoResizeScale < m.poolResizeBoundary
  then m.maxPoolSize * m.autoResizeScale
  else m.poolResizeBoundary

/-- Continuation of the embedding of connection.py lines 212-217: write
the new ceiling into the manager and into the container. -/
def autoResizeStep (m : Manager) : Manager :=
  { m with
    maxPoolSize := newCeiling m
    container := { m.container with maxPoolSize := newCeiling m } }

/-- Result of a borrow_connection call: a connection was obtained, a
Python exception was raised, or the recursion budget (fuel) ran out
without the call returning.  Every constructor carries the manager state
at that point. -/
inductive BorrowOutcome
  | ok (conn : ℕ) (m : Manager)
  | raised (e : PyError) (m : Manager)
  | fuelOut (m : Manager)
  deriving DecidableEq

/-- Manager state carried by a borrow outcome. -/
def BorrowOutcome.mgr : BorrowOutcome → Manager
  | .ok _ m => m
  | .raised _ m => m
  | .fuelOut m => m

/-- Embedding of borrow_connection (connection.py lines 190-219).  The
Python function is recursive; fuel bounds the recursion depth, with
fuelOut marking a call that is still recursing.  Note that the raise of
NoFreeConnectionFoundError (line 204) is commented out in the source:
when the pool is saturated and cannot grow, the code calls itself again
with block=True. -/
def borrowConnection : ℕ → Manager → Bool → BorrowOutcome
  | 0, m, _ => .fuelOut m
  | fuel + 1, m, block =>
    match borrowAux m block with
    | some (conn, m2) => .ok conn m2
    | none =>
      if (m.container.poolSize : ℤ) < m.maxPoolSize then
        match extendConnectionPool m with
        | .error e => .raised e m
        | .ok m2 => borrowConnection fuel m2 true
      else if m.enableAutoResize = false then
        borrowConnection fuel m true
      else if (m.container.poolSize : ℤ) ≥ m.poolResizeBoundary then
        borrowConnection fuel m true
      else
        match extendConnectionPool (autoResizeStep m) with
        | .error e => .raised e (autoResizeStep m)
        | .ok m2 => borrowConnection fuel m2 true

/-- Embedding of return_connection (connection.py lines 232-234): a
plain delegation to container.return_. -/
def returnConnection (m : Manager) (conn : ℕ) : Manager × Bool :=
  let r := m.container.return_ conn
  ({ m with container := r.1 }, r.2)

/-- Connections the manager iterates over (connection.py line 106-108
iterates the container; the stub container in container.py chains busy
entries before free entries). -/
def Manager.connections (m : Manager) : List ℕ :=
  m.container.busy ++ m.container.free

/-- Embedding of the loop body of _free (connection.py lines 265-273):
each close attempt may raise (closeResult) but the exception is caught
and discarded, so the loop visits every connection.  The returned list
records the connections whose close was attempted. -/
def freeAll (closeResult : ℕ → Except PyError Unit) : List ℕ → List ℕ
  | [] => []
  | c :: rest =>
    match closeResult c with
    | .ok _ => c :: freeAll closeResult rest
    | .error _ => c :: freeAll closeResult rest

/-- Embedding of close (connection.py lines 178-188): if the kill flag
is already set, return immediately; otherwise run _free over every
connection and set the kill flag.  The result is the new state, the
exception propagated out of close (always none), and the list of
connections whose close was attempted. -/
def close (closeResult : ℕ → Except PyError Unit) (m : Manager) :
    Manager × Option PyError × List ℕ :=
  if m.isKilled then (m, none, [])
  else ({ m with isKilled := true }, none, freeAll closeResult m.connections)

end ConnectionPy

namespace PoolPy

/-- Python sequence values as pool.py stores them: the free queue is a
collections.deque, the busy list a builtin list. -/
inductive PySeq
  | deque (xs : List ℕ)
  | pylist (xs : List ℕ)
  deriving DecidableEq

/-- Length of a Python sequence value. -/
def PySeq.length : PySeq → ℕ
  | .deque xs => xs.length
  | .pylist xs => xs.length

/-- Python + on sequences: a deque concatenates only with a deque and a
list only with a list; deque + list raises TypeError. -/
def pySeqAdd : PySeq → PySeq → Except PyError PySeq
  | .deque xs, .deque ys => .ok (.deque (xs ++ ys))
  | .pylist xs, .pylist ys => .ok (.pylist (xs ++ ys))
  | _, _ => .error .typeError

/-- State of the legacy MySQLConnectionPool in pool.py: the deque of
free connections (head is the left end, where appendleft pushes; pop
takes from the right end), the busy list, and the capacity
configuration. -/
structure LegacyPool where
  free : List ℕ
  busy : List ℕ
  max_pool_size : ℤ
  incremental_size : ℤ
  deriving DecidableEq

/-- Embedding of the pool_size property (pool.py lines 143-146): it
evaluates len on __free_connections + __busy_connections, a deque plus
a list. -/
def pool_size (p : LegacyPool) : Except PyError ℕ :=
  match pySeqAdd (.deque p.free) (.pylist p.busy) with
  | .error e => .error e
  | .ok s => .ok s.length

/-- Embedding of the free_size property (pool.py lines 148-151). -/
def free_size (p : LegacyPool) : ℕ :=
  p.free.length

/-- Embedding of _get_free_connection (pool.py lines 200-212): None on
an empty free queue, otherwise pop from the right of the deque, append
to the busy list, and then format the debug message, which eagerly
evaluates the pool_size property on the updated state. -/
def get_free_connection (p : LegacyPool) : Except PyError (Option (ℕ × LegacyPool)) :=
  if h : p.free = [] then .ok none
  else
    let conn := p.free.getLast h
    let p2 : LegacyPool := { p with free := p.free.dropLast, busy := p.busy ++ [conn] }
    match pool_size p2 with
    | .error e => .error e
    | .ok _ => .ok (some (conn, p2))

/-- Embedding of _create_connection (pool.py lines 256-265): it ends in
MySQLConnection(conn), but MySQLConnection.__init__ (line 34) requires
the additional is_free argument, so the call raises TypeError. -/
def create_connection : Except PyError ℕ :=
  .error .typeError

/-- Embedding of _add_connections (pool.py lines 228-244): with a
positive incremental_size the first iteration raises the TypeError from
_create_connection (the try only catches queue.Full); had creation
succeeded, the attribute self._connection_pool is never defined and
would raise AttributeError. -/
def add_connections (p : LegacyPool) : Except PyError LegacyPool :=
  if p.incremental_size ≤ 0 then .ok p
  else
    match create_connection with
    | .error e => .error e
    | .ok _ => .error .attributeError

/-- Embedding of the wait loop of borrow_connection (pool.py lines
191-198): decrement the budget, retry _get_free_connection, sleep; when
the budget reaches zero the while-else raises NoFreeConnectionError. -/
def wait_loop : ℕ → LegacyPool → Except PyError (ℕ × LegacyPool)
  | 0, _ => .error .noFreeConnectionFound
  | t + 1, p =>
    match get_free_connection p with
    | .error e => .error e
    | .ok (some r) => .ok r
    | .ok none => wait_loop t p

/-- Result of the legacy borrow_connection: a connection, a raised
Python exception, or recursion fuel exhausted. -/
inductive LegacyOutcome
  | ok (conn : ℕ) (p : LegacyPool)
  | raised (e : PyError)
  | fuelOut
  deriving DecidableEq

/-- Embedding of borrow_connection (pool.py lines 173-198): fast path
via _get_free_connection, then the pool_size comparison, then either an
_add_connections plus recursive retry or the wait loop.  Fuel bounds
the recursion. -/
def borrow_connection : ℕ → LegacyPool → ℕ → LegacyOutcome
  | 0, _, _ => .fuelOut
  | fuel + 1, p, wait_timeout =>
    match get_free_connection p with
    | .error e => .raised e
    | .ok (some (c, p2)) => .ok c p2
    | .ok none =>
      match pool_size p with
      | .error e => .raised e
      | .ok n =>
        if (n : ℤ) < p.max_pool_size then
          match add_connections p with
          | .error e => .raised e
          | .ok p2 => borrow_connection fuel p2 wait_timeout
        else
          match wait_loop wait_timeout p with
          | .error e => .raised e
          | .ok (c, p2) => .ok c p2

/-- Embedding of return_connection (pool.py lines 214-226): first the
pool_size comparison against max_pool_size (reject with False after a
warning when equal), then busy.remove (ValueError when the item is not
tracked as busy), appendleft onto the free deque, and a debug message
that eagerly evaluates pool_size on the updated state.  The Bool
records whether the return was accepted. -/
def return_connection (p : LegacyPool) (item : ℕ) : Except PyError (LegacyPool × Bool) :=
  match pool_size p with
  | .error e => .error e
  | .ok n =>
    if (n : ℤ) = p.max_pool_size then .ok (p, false)
    else if item ∈ p.busy then
      let p2 : LegacyPool := { p with busy := p.busy.erase item, free := item :: p.free }
      match pool_size p2 with
      | .error e => .error e
      | .ok _ => .ok (p2, true)
    else .error .valueError

/-- Names defined or imported at the top level of pool.py; these are
exactly the attributes importable from the module pymysqlpool.pool. -/
def module_attributes : List String :=
  ["datetime", "logging", "queue", "threading", "time", "deque", "chain",
   "Connection", "DictCursor", "Cursor", "PoolCursor",
   "__version__", "__author__", "logger",
   "NoFreeConnectionError", "MySQLConnection", "PoolContainer",
   "MySQLConnectionPool"]

/-- Number of constructor arguments accepted by PoolContainer in pool.py
(lines 55-56: an empty class body, so object.__init__ accepts none). -/
def pool_container_ctor_arity : ℕ := 0

end PoolPy

namespace ConnectionPy

/-- Names that line 16 of connection.py brings in from pymysqlpool.pool. -/
def imported_from_pool : List String :=
  ["PoolContainer", "PoolIsFullException", "PoolIsEmptyException"]

/-- Number of arguments passed to PoolContainer at connection.py line 90. -/
def pool_container_call_arity : ℕ := 1

/-- Loading the module connection.py executes its module level
statements; a from-import of a name the source module lacks raises
ImportError, so the module fails to load when any requested name is
absent from pool.py. -/
def importConnectionModule : Except PyError Unit :=
  if imported_from_pool.all (fun n => PoolPy.module_attributes.contains n) then .ok ()
  else .error .importError

/-- Package level factory ConnectionPool (pymysqlpool __init__.py lines
6-24): it first loads connection.py to obtain MySQLConnectionPool, then
constructs the manager, whose __init__ (line 90) calls PoolContainer
with one argument, a TypeError whenever the arities differ. -/
def connectionPoolFactory (cfg : PoolConfig) : Except PyError Manager :=
  match importConnectionModule with
  | .error e => .error e
  | .ok _ =>
    if pool_container_call_arity = PoolPy.pool_container_ctor_arity then mkManager cfg
    else .error .typeError

/-- Observable actions performed by the scoped acquisition helpers on
the borrowed connection and on the pool. -/
inductive Event
  | borrowConn
  | returnConn
  | commitTx
  | rollbackTx
  | logError
  | setAutocommit (v : Bool)
  | restoreAutocommit
  | openCursor
  | closeCursor
  deriving DecidableEq

/-- Trace of the context manager connection() (connection.py lines
143-155) with the given autocommit argument, for a body that either
completes or raises (bodyRaises): borrow, set autocommit; a raising
body is logged (the exception is swallowed, nothing is rolled back);
finally the old autocommit value is restored and the connection is
returned. -/
def connectionHelperTrace (autocommit : Bool) (bodyRaises : Bool) : List Event :=
  [.borrowConn, .setAutocommit autocommit]
    ++ (if bodyRaises then [.logError] else [])
    ++ [.restoreAutocommit, .returnConn]

/-- Trace of the context manager cursor() (connection.py lines 122-141):
it enters connection() with the default autocommit=False, switches
autocommit on, opens a cursor, yields; a raising body triggers rollback
and logging (the exception is swallowed, so the outer connection()
never sees it); finally autocommit is restored and the cursor closed,
after which connection() restores its own autocommit value and returns
the connection. -/
def cursorHelperTrace (bodyRaises : Bool) : List Event :=
  [.borrowConn, .setAutocommit false]
    ++ [.setAutocommit true, .openCursor]
    ++ (if bodyRaises then [.rollbackTx, .logError] else [])
    ++ [.restoreAutocommit, .closeCursor]
    ++ [.restoreAutocommit, .returnConn]

end ConnectionPy

namespace CursorPy

/-- Trace of PoolCursor.__exit__ followed by close (cursor.py lines
38-51): on an exception the traceback is logged and the connection
rolled back, otherwise the connection is committed; then close returns
the connection to the pool. -/
def poolCursorExitTrace (bodyRaises : Bool) : List ConnectionPy.Event :=
  (if bodyRaises then [.logError, .rollbackTx] else [.commitTx])
    ++ [.returnConn]

end CursorPy

namespace ContainerPy

/-- State of the PoolContainer in container.py (lines 21-27): the free
deque, the busy list, the ceiling and the queue mode string. -/
structure StubContainer where
  free_items : List ℕ
  busy_items : List ℕ
  max_pool_size : ℤ
  queue_mode : String
  deriving DecidableEq

/-- Embedding of return_item (container.py lines 37-39): the body takes
the lock and does nothing. -/
def return_item (c : StubContainer) (_item : ℕ) : StubContainer :=
  c

/-- Embedding of borrow_item (container.py lines 41-43): the body takes
the lock and does nothing, so the function returns None and leaves the
state unchanged. -/
def borrow_item (c : StubContainer) (_wait_timeout : ℤ) : StubContainer × Option ℕ :=
  (c, none)

/-- Embedding of the pool_size property (container.py lines 45-47). -/
def pool_size (_c : StubContainer) : ℕ :=
  0

/-- Embedding of the free_size property (container.py lines 49-51). -/
def free_size (_c : StubContainer) : ℕ :=
  0

/-- A call to one of the mutating operations of the stub container. -/
inductive StubOp
  | ret (item : ℕ)
  | bor (wait_timeout : ℤ)
  deriving DecidableEq

/-- Apply one operation to the stub container state. -/
def applyStubOp (c : StubContainer) : StubOp → StubContainer
  | .ret item => return_item c item
  | .bor t => (borrow_item c t).1

end ContainerPy

/-! Theorems settling the claims. -/

/-- C8: for every argument list, constructing the manager in
connection.py, and hence every call of the package level ConnectionPool
factory, fails before any pool is usable: line 16 requests
PoolIsFullException and PoolIsEmptyException from pymysqlpool.pool,
which defines neither, so the module never loads (ImportError); and
independently the constructor call PoolContainer(max_pool_size) passes
one argument to a class accepting none. -/
theorem c8_connection_module_never_loads :
    (∀ cfg, ConnectionPy.connectionPoolFactory cfg = .error .importError) ∧
    ConnectionPy.importConnectionModule = .error .importError ∧
    "PoolIsFullException" ∉ PoolPy.module_attributes ∧
    "PoolIsEmptyException" ∉ PoolPy.module_attributes ∧
    ConnectionPy.pool_container_call_arity ≠ PoolPy.pool_container_ctor_arity :=
  ⟨fun _ => rfl, rfl, by decide, by decide, by decide⟩

/-- C9: in the legacy manager in pool.py the pool_size property raises
TypeError for every state, because it concatenates the deque of free
connections with the list of busy connections; hence every call of
return_connection raises TypeError, and every borrow_connection call
whose fast path misses (empty free queue) raises TypeError as well. -/
theorem c9_legacy_pool_size_always_type_error :
    (∀ p, PoolPy.pool_size p = .error .typeError) ∧
    (∀ p item, PoolPy.return_connection p item = .error .typeError) ∧
    (∀ fuel p t, p.free = [] →
      PoolPy.borrow_connection (fuel + 1) p t = .raised .typeError) := by
  refine ⟨fun p => rfl, fun p item => rfl, fun fuel p t h => ?_⟩
  simp only [PoolPy.borrow_connection, PoolPy.get_free_connection, dif_pos h]
  rfl

/-- C9 witness: the general theorem evaluated on concrete legacy pools:
a pool holding one free and one busy connection, and a borrow on a pool
with an empty free queue. -/
theorem c9_witness :
    PoolPy.pool_size ⟨[5], [7], 5, 2⟩ = .error .typeError ∧
    PoolPy.return_connection ⟨[5], [7], 5, 2⟩ 7 = .error .typeError ∧
    PoolPy.borrow_connection 4 ⟨[], [7], 5, 2⟩ 3 = .raised .typeError :=
  ⟨c9_legacy_pool_size_always_type_error.1 ⟨[5], [7], 5, 2⟩,
   c9_legacy_pool_size_always_type_error.2.1 ⟨[5], [7], 5, 2⟩ 7,
   c9_legacy_pool_size_always_type_error.2.2 3 ⟨[], [7], 5, 2⟩ 3 rfl⟩

/-- C10: every public operation of the PoolContainer in container.py
leaves the state unchanged, borrow_item and return_item return no item,
and the size queries return 0 after any sequence of operations. -/
theorem c10_stub_container_inert :
    (∀ c item, ContainerPy.return_item c item = c) ∧
    (∀ c t, ContainerPy.borrow_item c t = (c, none)) ∧
    (∀ (c : ContainerPy.StubContainer) (ops : List ContainerPy.StubOp),
      ContainerPy.pool_size (ops.foldl ContainerPy.applyStubOp c) = 0 ∧
      ContainerPy.free_size (ops.foldl ContainerPy.applyStubOp c) = 0) :=
  ⟨fun _ _ => rfl, fun _ _ => rfl, fun _ _ => ⟨rfl, rfl⟩⟩

/-- Helper: a successful Container.add keeps the container ceiling. -/
theorem add_ok_max {c c2 : SpecContainer.Container} {conn : ℕ}
    (h : c.add conn = .ok c2) : c2.maxPoolSize = c.maxPoolSize := by
  unfold SpecContainer.Container.add at h
  split_ifs at h
  · injection h with h; subst h; rfl
  · injection h with h; subst h; rfl

/-- Helper: a successful Container.add keeps the entry count below any
bound that dominates both the old count and the container ceiling. -/
theorem add_ok_poolSize_le {c c2 : SpecContainer.Container} {conn : ℕ} {b : ℤ}
    (h : c.add conn = .ok c2) (hc : c.maxPoolSize ≤ b)
    (hp : (c.poolSize : ℤ) ≤ b) : (c2.poolSize : ℤ) ≤ b := by
  unfold SpecContainer.Container.add at h
  split_ifs at h with h1 h2
  · injection h with h; subst h; exact hp
  · injection h with h; subst h
    have hlen : SpecContainer.Container.poolSize { c with free := conn :: c.free }
        = c.poolSize + 1 := by
      simp [SpecContainer.Container.poolSize]
      omega
    rw [hlen]
    push_cast
    omega

/-- Helper: the fill loop never changes the capacity configuration of
the manager or of the container. -/
theorem extendLoop_capacity {n : ℕ} {m m2 : ConnectionPy.Manager}
    (h : ConnectionPy.extendLoop n m = .ok m2) :
    m2.maxPoolSize = m.maxPoolSize ∧ m2.autoResizeScale = m.autoResizeScale ∧
    m2.poolResizeBoundary = m.poolResizeBoundary ∧
    m2.container.maxPoolSize = m.container.maxPoolSize ∧
    m2.enableAutoResize = m.enableAutoResize ∧ m2.stepSize = m.stepSize := by
  induction n generalizing m with
  | zero =>
    injection h with h
    subst h
    exact ⟨rfl, rfl, rfl, rfl, rfl, rfl⟩
  | succ k ih =>
    rw [ConnectionPy.extendLoop] at h
    rcases ha : m.container.add m.nextConnId with e | c2
    · rw [ha] at h
      dsimp only at h
      split_ifs at h
      injection h with h
      subst h
      exact ⟨rfl, rfl, rfl, rfl, rfl, rfl⟩
    · rw [ha] at h
      dsimp only at h
      have := ih h
      simpa [add_ok_max ha] using this

/-- Helper: the fill loop returns ok, never PoolBoundaryExceedsError,
whenever the container ceiling and the entry count are at most the
boundary.  This is the state every constructed manager is in. -/
theorem extendLoop_isOk {n : ℕ} {m : ConnectionPy.Manager}
    (hc : m.container.maxPoolSize ≤ m.poolResizeBoundary)
    (hp : (m.container.poolSize : ℤ) ≤ m.poolResizeBoundary) :
    (ConnectionPy.extendLoop n m).isOk = true := by
  induction n generalizing m with
  | zero => rfl
  | succ k ih =>
    rw [ConnectionPy.extendLoop]
    rcases ha : m.container.add m.nextConnId with e | c2
    · dsimp only
      rw [if_neg (by omega)]
      rfl
    · dsimp only
      exact ih (by simpa [add_ok_max ha] using hc) (add_ok_poolSize_le ha hc hp)

/-- C4: concerning the only concrete return implementation in the
sources (pool.py return_connection), returning a resource, tracked or
not, raises TypeError from the pool_size comparison on its first line,
so an untracked return is never rejected with a warning, a failure
report, and unchanged state; in particular the call never evaluates to
the graceful rejection value False. -/
theorem c4_return_raises_instead_of_rejecting :
    ∀ (p : PoolPy.LegacyPool) (item : ℕ),
      PoolPy.return_connection p item = .error .typeError ∧
      PoolPy.return_connection p item ≠ .ok (p, false) :=
  fun _ _ => ⟨rfl, fun h => Except.noConfusion h⟩

/-- Decidable equality for Except results, used to evaluate the
embedded functions on concrete inputs. -/
instance instDecEqExcept {α β : Type} [DecidableEq α] [DecidableEq β] :
    DecidableEq (Except α β) := fun a b =>
  match a, b with
  | .ok x, .ok y => decidable_of_iff (x = y) (by simp)
  | .error x, .error y => decidable_of_iff (x = y) (by simp)
  | .ok _, .error _ => isFalse (fun h => Except.noConfusion h)
  | .error _, .ok _ => isFalse (fun h => Except.noConfusion h)

/-- Configuration for claim C3: a requested ceiling of 100 against a
hard boundary of 48. -/
def c3cfg : ConnectionPy.PoolConfig :=
  ⟨100, 2, false, mkRat 3 2, 48⟩

/-- The manager the constructor produces for c3cfg: the ceiling is
silently clamped to the boundary 48. -/
def c3mgr : ConnectionPy.Manager :=
  { container := ⟨[], [], 48⟩
    maxPoolSize := 48
    stepSize := 2
    enableAutoResize := false
    autoResizeScale := 2
    poolResizeBoundary := 48
    isKilled := false
    isConnected := false
    nextConnId := 0 }

/-- C3 counterexample: a configuration whose capacity parameter exceeds
the hard boundary is NOT rejected at construction time.  Construction
succeeds, clamps the ceiling to the boundary, and the subsequent
initial fill also succeeds without PoolBoundaryExceedsError. -/
theorem c3_counterexample :
    ConnectionPy.mkManager c3cfg = .ok c3mgr ∧
    c3mgr.maxPoolSize = 48 ∧
    (ConnectionPy.connect c3mgr).isOk = true := by
  decide

/-- C3 amended: construction never raises PoolBoundaryExceedsError; a
ceiling request above the boundary is silently clamped to the boundary
at construction; and because a constructed manager keeps ceiling and
entry count at most the boundary, fills (where the error could in
principle arise, connection.py lines 254-263) return ok as well. -/
theorem c3_amended :
    (∀ cfg m, ConnectionPy.mkManager cfg = .ok m →
      m.maxPoolSize = ConnectionPy.clampCeiling cfg ∧
      m.maxPoolSize ≤ cfg.poolResizeBoundary ∧
      m.container.maxPoolSize = m.maxPoolSize ∧
      (cfg.poolResizeBoundary ≤ cfg.maxPoolSize →
        m.maxPoolSize = cfg.poolResizeBoundary)) ∧
    (∀ cfg, ConnectionPy.mkManager cfg ≠ .error .poolBoundaryExceeds) ∧
    (∀ m, m.container.maxPoolSize ≤ m.poolResizeBoundary →
      (m.container.poolSize : ℤ) ≤ m.poolResizeBoundary →
      (ConnectionPy.extendConnectionPool m).isOk = true) := by
  refine ⟨fun cfg m h => ?_, fun cfg h => ?_, fun m h1 h2 => extendLoop_isOk h1 h2⟩
  · unfold ConnectionPy.mkManager at h
    split_ifs at h
    injection h with h
    subst h
    refine ⟨rfl, ?_, rfl, fun hge => ?_⟩
    · show ConnectionPy.clampCeiling cfg ≤ cfg.poolResizeBoundary
      unfold ConnectionPy.clampCeiling
      split_ifs <;> omega
    · show ConnectionPy.clampCeiling cfg = cfg.poolResizeBoundary
      unfold ConnectionPy.clampCeiling
      split_ifs <;> omega
  · unfold ConnectionPy.mkManager at h
    split_ifs at h
    simp at h

/-- C3 witness: the amended theorem applied to the concrete clamped
manager and its configuration. -/
theorem c3_witness :
    c3mgr.maxPoolSize = c3cfg.poolResizeBoundary ∧
    (ConnectionPy.extendConnectionPool c3mgr).isOk = true :=
  ⟨(c3_amended.1 c3cfg c3mgr (by decide)).2.2.2 (by decide),
   c3_amended.2.2 c3mgr (by decide) (by decide)⟩

/-- Manager for claim C2: saturated pool (two entries, both busy),
ceiling 2 reached, auto resize disabled. -/
def c2mgr : ConnectionPy.Manager :=
  { container := ⟨[], [0, 1], 2⟩
    maxPoolSize := 2
    stepSize := 2
    enableAutoResize := false
    autoResizeScale := 2
    poolResizeBoundary := 48
    isKilled := false
    isConnected := true
    nextConnId := 2 }

/-- Second manager for claim C2: auto resize enabled but the ceiling
has already reached the boundary. -/
def c2mgrB : ConnectionPy.Manager :=
  { c2mgr with enableAutoResize := true, poolResizeBoundary := 2 }

/-- C2: the borrow loop of connection.py never raises
NoFreeConnectionFoundError.  On a saturated pool that cannot grow
(auto resize disabled, or ceiling at the boundary) every round of the
recursion calls borrow_connection(True) again with unchanged state
(the raise at line 204 is commented out), so for every recursion budget
the call is still recursing and no typed error is ever raised. -/
theorem c2_exhausted_borrow_never_raises_typed_error :
    ∀ (fuel : ℕ) (block : Bool),
      ConnectionPy.borrowConnection fuel c2mgr block = .fuelOut c2mgr ∧
      ConnectionPy.borrowConnection fuel c2mgrB block = .fuelOut c2mgrB ∧
      ∀ m, ConnectionPy.borrowConnection fuel c2mgr block ≠
        .raised .noFreeConnectionFound m := by
  intro fuel
  induction fuel with
  | zero =>
    intro block
    exact ⟨rfl, rfl, fun m h => ConnectionPy.BorrowOutcome.noConfusion h⟩
  | succ n ih =>
    intro block
    have e1 : ConnectionPy.borrowConnection (n + 1) c2mgr block
        = ConnectionPy.borrowConnection n c2mgr true := rfl
    have e2 : ConnectionPy.borrowConnection (n + 1) c2mgrB block
        = ConnectionPy.borrowConnection n c2mgrB true := rfl
    obtain ⟨a, b, c⟩ := ih true
    exact ⟨e1.trans a, e2.trans b, fun m => e1 ▸ c m⟩

/-- C6 counterexample: the connection() helper does not commit on clean
exit and does not roll back on error exit, and the cursor() helper does
not issue an explicit commit on clean exit either. -/
theorem c6_counterexample :
    ConnectionPy.Event.commitTx ∉ ConnectionPy.connectionHelperTrace false false ∧
    ConnectionPy.Event.rollbackTx ∉ ConnectionPy.connectionHelperTrace false true ∧
    ConnectionPy.Event.commitTx ∉ ConnectionPy.cursorHelperTrace false := by
  decide

/-- C6 amended: connection() and cursor() borrow on entry and run
return_connection on every exit path (normal or raising body), but
neither ever commits; connection() swallows errors without rollback
and cursor() rolls back on a raising body; the
commit-on-clean-exit/rollback-on-error discipline is implemented by
PoolCursor.__exit__ in cursor.py, which then returns the connection. -/
theorem c6_scoped_helpers :
    (∀ a b,
      (ConnectionPy.connectionHelperTrace a b).head? = some .borrowConn ∧
      ConnectionPy.Event.returnConn ∈ ConnectionPy.connectionHelperTrace a b ∧
      ConnectionPy.Event.commitTx ∉ ConnectionPy.connectionHelperTrace a b ∧
      ConnectionPy.Event.rollbackTx ∉ ConnectionPy.connectionHelperTrace a b) ∧
    (∀ b,
      (ConnectionPy.cursorHelperTrace b).head? = some .borrowConn ∧
      ConnectionPy.Event.returnConn ∈ ConnectionPy.cursorHelperTrace b ∧
      ConnectionPy.Event.commitTx ∉ ConnectionPy.cursorHelperTrace b) ∧
    ConnectionPy.Event.rollbackTx ∈ ConnectionPy.cursorHelperTrace true ∧
    ConnectionPy.Event.rollbackTx ∉ ConnectionPy.cursorHelperTrace false ∧
    CursorPy.poolCursorExitTrace false = [.commitTx, .returnConn] ∧
    CursorPy.poolCursorExitTrace true = [.logError, .rollbackTx, .returnConn] := by
  decide

/-- The ceiling update formula as the specification words it: after an
auto resize triggered by a miss, new_ceiling = min(hard_boundary,
round(old_ceiling * scale_factor)), with scale_factor the configured
auto_resize_scale.  Stated from the spec wording, for comparison with
the computation the code performs. -/
def specNewCeiling (oldCeiling hardBoundary : ℤ) (scaleFactor : ℚ) : ℤ :=
  min hardBoundary (pyRound (intMulRat oldCeiling scaleFactor))

/-- Configuration for claim C1: ceiling 10, boundary 48, auto resize
enabled with the default scale 1.5. -/
def c1cfg : ConnectionPy.PoolConfig :=
  ⟨10, 2, true, mkRat 3 2, 48⟩

/-- The freshly constructed manager for c1cfg; note the stored integer
scale int(round(1.5, 0)) = 2. -/
def c1mgr0 : ConnectionPy.Manager :=
  { container := ⟨[], [], 10⟩
    maxPoolSize := 10
    stepSize := 2
    enableAutoResize := true
    autoResizeScale := 2
    poolResizeBoundary := 48
    isKilled := false
    isConnected := false
    nextConnId := 0 }

/-- The c1cfg manager once its ten entries exist and are all busy: the
next borrow misses and triggers the auto resize path. -/
def c1mgr : ConnectionPy.Manager :=
  { c1mgr0 with
    container := ⟨[], [0, 1, 2, 3, 4, 5, 6, 7, 8, 9], 10⟩
    isConnected := true
    nextConnId := 10 }

/-- C1 counterexample: with configured scale 1.5 the constructor stores
the integer scale 2, so the borrow that triggers the auto resize moves
the ceiling from 10 to min(48, 10 * 2) = 20, while the claimed formula
min(48, round(10 * 1.5)) gives 15. -/
theorem c1_counterexample :
    ConnectionPy.mkManager c1cfg = .ok c1mgr0 ∧
    (ConnectionPy.borrowConnection 3 c1mgr false).mgr.maxPoolSize = 20 ∧
    specNewCeiling c1mgr.maxPoolSize c1mgr.poolResizeBoundary
      c1cfg.autoResizeScale = 15 ∧
    (ConnectionPy.borrowConnection 3 c1mgr false).mgr.maxPoolSize ≠
      specNewCeiling c1mgr.maxPoolSize c1mgr.poolResizeBoundary
        c1cfg.autoResizeScale := by
  exact ⟨by decide, by decide, by decide, by decide⟩

/-- C1 amended: on a borrow miss that triggers the auto resize path
(no free entry, pool size not below the ceiling, auto resize enabled,
pool size below the boundary) the new ceiling is
min(hard_boundary, old_ceiling * s), where s is the integer
int(round(auto_resize_scale, 0)) stored at construction; the borrow
then proceeds through a fill against the resized manager. -/
theorem c1_amended (m : ConnectionPy.Manager) (fuel : ℕ) (block : Bool)
    (hfree : m.container.free = [])
    (hsize : ¬ ((m.container.poolSize : ℤ) < m.maxPoolSize))
    (hauto : m.enableAutoResize = true)
    (hbound : ¬ ((m.container.poolSize : ℤ) ≥ m.poolResizeBoundary)) :
    (ConnectionPy.autoResizeStep m).maxPoolSize =
      min m.poolResizeBoundary (m.maxPoolSize * m.autoResizeScale) ∧
    (∀ cfg m0, ConnectionPy.mkManager cfg = .ok m0 →
      m0.autoResizeScale = pyRound cfg.autoResizeScale) ∧
    ConnectionPy.borrowConnection (fuel + 1) m block =
      (match ConnectionPy.extendConnectionPool (ConnectionPy.autoResizeStep m) with
       | .error e => ConnectionPy.BorrowOutcome.raised e (ConnectionPy.autoResizeStep m)
       | .ok m2 => ConnectionPy.borrowConnection fuel m2 true) := by
  refine ⟨?_, fun cfg m0 h => ?_, ?_⟩
  · show ConnectionPy.newCeiling m = _
    unfold ConnectionPy.newCeiling
    rcases le_or_lt m.poolResizeBoundary (m.maxPoolSize * m.autoResizeScale) with h | h
    · rw [if_neg (not_lt.mpr h), min_eq_left h]
    · rw [if_pos h, min_eq_right (le_of_lt h)]
  · unfold ConnectionPy.mkManager at h
    split_ifs at h
    injection h with h
    subst h
    rfl
  · have hb : ConnectionPy.borrowAux m block = none := by
      simp [ConnectionPy.borrowAux, SpecContainer.Container.get, hfree]
    rw [ConnectionPy.borrowConnection, hb]
    dsimp only
    rw [if_neg hsize, if_neg (by simp [hauto]), if_neg hbound]

/-- C1 witness: the amended theorem applied to the concrete triggering
manager c1mgr. -/
theorem c1_witness :
    (ConnectionPy.autoResizeStep c1mgr).maxPoolSize =
      min c1mgr.poolResizeBoundary (c1mgr.maxPoolSize * c1mgr.autoResizeScale) ∧
    (∀ cfg m0, ConnectionPy.mkManager cfg = .ok m0 →
      m0.autoResizeScale = pyRound cfg.autoResizeScale) ∧
    ConnectionPy.borrowConnection 3 c1mgr false =
      (match ConnectionPy.extendConnectionPool (ConnectionPy.autoResizeStep c1mgr) with
       | .error e => ConnectionPy.BorrowOutcome.raised e (ConnectionPy.autoResizeStep c1mgr)
       | .ok m2 => ConnectionPy.borrowConnection 2 m2 true) :=
  c1_amended c1mgr 2 false rfl (by decide) rfl (by decide)

/-- Helper: the _free loop visits every connection, whatever each close
attempt returns. -/
theorem freeAll_eq (f : ℕ → Except PyError Unit) :
    ∀ l : List ℕ, ConnectionPy.freeAll f l = l := by
  intro l
  induction l with
  | nil => rfl
  | cons c rest ih =>
    rw [ConnectionPy.freeAll]
    rcases f c with e | u <;> simpa using ih

/-- C5: close() is idempotent and never raises: for every per-entry
close behaviour (including failing ones) the exception component is
none; a second close on the resulting state changes nothing and closes
nothing further; and a close on a live pool attempts the close of every
tracked connection even when individual attempts fail. -/
theorem c5_close_idempotent_never_raises :
    ∀ (f : ℕ → Except PyError Unit) (m : ConnectionPy.Manager),
      (ConnectionPy.close f m).2.1 = none ∧
      ConnectionPy.close f (ConnectionPy.close f m).1
        = ((ConnectionPy.close f m).1, none, []) ∧
      (ConnectionPy.close f { m with isKilled := false }).2.2
        = ConnectionPy.Manager.connections { m with isKilled := false } := by
  intro f m
  refine ⟨?_, ?_, ?_⟩
  · by_cases h : m.isKilled <;> simp [ConnectionPy.close, h]
  · by_cases h : m.isKilled <;> simp [ConnectionPy.close, h]
  · simp [ConnectionPy.close, freeAll_eq]

/-- Capacity well-formedness as established by construction from a non
negative configuration: the ceiling is non negative and at most the
boundary, and the stored integer scale is at least 1. -/
def GoodState (m : ConnectionPy.Manager) : Prop :=
  0 ≤ m.maxPoolSize ∧ 1 ≤ m.autoResizeScale ∧ m.maxPoolSize ≤ m.poolResizeBoundary

/-- Helper: GoodState only depends on the three capacity fields. -/
theorem goodState_of_fields {m m2 : ConnectionPy.Manager}
    (e1 : m2.maxPoolSize = m.maxPoolSize)
    (e2 : m2.autoResizeScale = m.autoResizeScale)
    (e3 : m2.poolResizeBoundary = m.poolResizeBoundary)
    (hg : GoodState m) : GoodState m2 := by
  unfold GoodState at hg ⊢
  rw [e1, e2, e3]
  exact hg

/-- Helper: a successful fast-path borrow only moves an entry inside
the container. -/
theorem borrowAux_fields {m m2 : ConnectionPy.Manager} {block : Bool} {conn : ℕ}
    (h : ConnectionPy.borrowAux m block = some (conn, m2)) :
    m2.maxPoolSize = m.maxPoolSize ∧ m2.autoResizeScale = m.autoResizeScale ∧
    m2.poolResizeBoundary = m.poolResizeBoundary := by
  unfold ConnectionPy.borrowAux at h
  split at h
  · exact Option.noConfusion h
  · injection h with h
    injection h with h1 h2
    subst h2
    exact ⟨rfl, rfl, rfl⟩

/-- Helper: the auto resize step never lowers a well-formed ceiling and
keeps the state well formed. -/
theorem autoResizeStep_mono {m : ConnectionPy.Manager} (hg : GoodState m) :
    m.maxPoolSize ≤ (ConnectionPy.autoResizeStep m).maxPoolSize ∧
    GoodState (ConnectionPy.autoResizeStep m) := by
  obtain ⟨h0, h1, h2⟩ := hg
  have hle : m.maxPoolSize ≤ m.maxPoolSize * m.autoResizeScale :=
    le_mul_of_one_le_right h0 h1
  refine ⟨?_, ?_, ?_, ?_⟩
  · show m.maxPoolSize ≤ ConnectionPy.newCeiling m
    unfold ConnectionPy.newCeiling
    split_ifs <;> omega
  · show (0 : ℤ) ≤ ConnectionPy.newCeiling m
    unfold ConnectionPy.newCeiling
    split_ifs <;> omega
  · show (1 : ℤ) ≤ m.autoResizeScale
    exact h1
  · show ConnectionPy.newCeiling m ≤ m.poolResizeBoundary
    unfold ConnectionPy.newCeiling
    split_ifs <;> omega

/-- Helper: borrow_connection preserves well-formedness and never
lowers the ceiling, for every recursion budget and outcome. -/
theorem borrow_mono : ∀ (fuel : ℕ) (m : ConnectionPy.Manager) (block : Bool),
    GoodState m →
    GoodState (ConnectionPy.borrowConnection fuel m block).mgr ∧
    m.maxPoolSize ≤ (ConnectionPy.borrowConnection fuel m block).mgr.maxPoolSize := by
  intro fuel
  induction fuel with
  | zero => exact fun m block hg => ⟨hg, le_refl _⟩
  | succ n ih =>
    intro m block hg
    rw [ConnectionPy.borrowConnection]
    rcases hb : ConnectionPy.borrowAux m block with - | ⟨conn, m2⟩
    · dsimp only
      split_ifs with h1 h2 h3
      · rcases he : ConnectionPy.extendConnectionPool m with e | m2
        · exact ⟨hg, le_refl _⟩
        · dsimp only
          obtain ⟨e1, e2, e3, -, -, -⟩ := extendLoop_capacity he
          have hg2 : GoodState m2 := goodState_of_fields e1 e2 e3 hg
          obtain ⟨ga, gb⟩ := ih m2 true hg2
          exact ⟨ga, by omega⟩
      · exact ih m true hg
      · exact ih m true hg
      · obtain ⟨hle, hg1⟩ := autoResizeStep_mono hg
        rcases he : ConnectionPy.extendConnectionPool (ConnectionPy.autoResizeStep m)
          with e | m2
        · exact ⟨hg1, hle⟩
        · dsimp only
          obtain ⟨e1, e2, e3, -, -, -⟩ := extendLoop_capacity he
          have hg2 : GoodState m2 := goodState_of_fields e1 e2 e3 hg1
          obtain ⟨ga, gb⟩ := ih m2 true hg2
          have hle2 : m.maxPoolSize ≤ m2.maxPoolSize := by omega
          exact ⟨ga, by omega⟩
    · obtain ⟨e1, e2, e3⟩ := borrowAux_fields hb
      exact ⟨goodState_of_fields e1 e2 e3 hg, le_of_eq e1.symm⟩

/-- One caller-visible operation on the manager, used to state ceiling
monotonicity across arbitrary operation sequences. -/
inductive PoolOp
  | borrow (fuel : ℕ) (block : Bool)
  | ret (conn : ℕ)
  | extend
  | closeOp (closeResult : ℕ → Except PyError Unit)
  | connectOp

/-- Apply one operation to a manager state (for the fallible operations
the state is the one carried by the outcome). -/
def applyOp (m : ConnectionPy.Manager) : PoolOp → ConnectionPy.Manager
  | .borrow fuel block => (ConnectionPy.borrowConnection fuel m block).mgr
  | .ret conn => (ConnectionPy.returnConnection m conn).1
  | .extend =>
    match ConnectionPy.extendConnectionPool m with
    | .ok m2 => m2
    | .error _ => m
  | .closeOp f => (ConnectionPy.close f m).1
  | .connectOp =>
    match ConnectionPy.connect m with
    | .ok m2 => m2
    | .error _ => m

/-- Helper: every single operation preserves well-formedness and never
lowers the ceiling. -/
theorem applyOp_mono (m : ConnectionPy.Manager) (op : PoolOp) (hg : GoodState m) :
    GoodState (applyOp m op) ∧ m.maxPoolSize ≤ (applyOp m op).maxPoolSize := by
  cases op with
  | borrow fuel block => exact borrow_mono fuel m block hg
  | ret conn => exact ⟨goodState_of_fields rfl rfl rfl hg, le_refl _⟩
  | extend =>
    dsimp only [applyOp]
    rcases he : ConnectionPy.extendConnectionPool m with e | m2
    · exact ⟨hg, le_refl _⟩
    · obtain ⟨e1, e2, e3, -, -, -⟩ := extendLoop_capacity he
      exact ⟨goodState_of_fields e1 e2 e3 hg, le_of_eq e1.symm⟩
  | closeOp f =>
    dsimp only [applyOp]
    by_cases h : m.isKilled <;> simp only [ConnectionPy.close, h] <;>
      exact ⟨goodState_of_fields rfl rfl rfl hg, le_refl _⟩
  | connectOp =>
    dsimp only [applyOp]
    by_cases h : m.isConnected
    · simp only [ConnectionPy.connect, h, if_pos]
      exact ⟨hg, le_refl _⟩
    · simp only [ConnectionPy.connect, h, if_neg]
      rcases he : ConnectionPy.extendConnectionPool { m with isConnected := true }
        with e | m2
      · exact ⟨hg, le_refl _⟩
      · obtain ⟨e1, e2, e3, -, -, -⟩ := extendLoop_capacity he
        exact ⟨goodState_of_fields e1 e2 e3 hg, le_of_eq e1.symm⟩

/-- Helper: well-formedness is preserved along any operation sequence. -/
theorem foldl_good (ops : List PoolOp) :
    ∀ m, GoodState m → GoodState (ops.foldl applyOp m) := by
  induction ops with
  | nil => exact fun _ h => h
  | cons op rest ih => exact fun m h => ih _ (applyOp_mono m op h).1

/-- Helper: construction from a configuration with non negative ceiling
and boundary and scale at least 1 yields a well-formed manager. -/
theorem mkManager_good {cfg : ConnectionPy.PoolConfig} {m0 : ConnectionPy.Manager}
    (h1 : 1 ≤ cfg.autoResizeScale) (h2 : 0 ≤ cfg.maxPoolSize)
    (h3 : 0 ≤ cfg.poolResizeBoundary)
    (h0 : ConnectionPy.mkManager cfg = .ok m0) : GoodState m0 := by
  unfold ConnectionPy.mkManager at h0
  split_ifs at h0
  injection h0 with h0
  subst h0
  refine ⟨?_, one_le_pyRound _ h1, ?_⟩
  · show (0 : ℤ) ≤ ConnectionPy.clampCeiling cfg
    unfold ConnectionPy.clampCeiling
    split_ifs <;> omega
  · show ConnectionPy.clampCeiling cfg ≤ cfg.poolResizeBoundary
    unfold ConnectionPy.clampCeiling
    split_ifs <;> omega

/-- C7 amended: for every pool constructed from a configuration with
non negative max_pool_size and boundary (and any accepted scale), no
operation in any sequence of borrows, returns, fills, connects and
closes ever lowers the ceiling.  With a negative configured ceiling
the auto resize multiplication can lower it (see the counterexample),
which is the only amendment the claim needs. -/
theorem c7_amended (cfg : ConnectionPy.PoolConfig)
    (h1 : 1 ≤ cfg.autoResizeScale) (h2 : 0 ≤ cfg.maxPoolSize)
    (h3 : 0 ≤ cfg.poolResizeBoundary) (m0 : ConnectionPy.Manager)
    (h0 : ConnectionPy.mkManager cfg = .ok m0)
    (ops : List PoolOp) (op : PoolOp) :
    (ops.foldl applyOp m0).maxPoolSize ≤
      (applyOp (ops.foldl applyOp m0) op).maxPoolSize :=
  (applyOp_mono _ op (foldl_good ops m0 (mkManager_good h1 h2 h3 h0))).2

/-- Configuration for the C7 counterexample: a negative requested
ceiling, which the constructor accepts. -/
def c7cfg : ConnectionPy.PoolConfig :=
  ⟨-2, 1, true, mkRat 2 1, 48⟩

/-- The constructed manager for c7cfg. -/
def c7m0 : ConnectionPy.Manager :=
  { container := ⟨[], [], -2⟩
    maxPoolSize := -2
    stepSize := 1
    enableAutoResize := true
    autoResizeScale := 2
    poolResizeBoundary := 48
    isKilled := false
    isConnected := false
    nextConnId := 0 }

/-- C7 counterexample: the pool constructed with max_pool_size = -2 is
accepted, and its first borrow lowers the ceiling from -2 to -4 through
the auto resize multiplication, so the ceiling is not monotone for
every constructible pool. -/
theorem c7_counterexample :
    ConnectionPy.mkManager c7cfg = .ok c7m0 ∧
    c7m0.maxPoolSize = -2 ∧
    (ConnectionPy.borrowConnection 1 c7m0 false).mgr.maxPoolSize = -4 ∧
    (ConnectionPy.borrowConnection 1 c7m0 false).mgr.maxPoolSize
      < c7m0.maxPoolSize := by
  exact ⟨by decide, by decide, by decide, by decide⟩

/-- Configuration for the C7 witness. -/
def c7wcfg : ConnectionPy.PoolConfig :=
  ⟨2, 2, true, mkRat 3 2, 4⟩

/-- The constructed manager for c7wcfg. -/
def c7wm0 : ConnectionPy.Manager :=
  { container := ⟨[], [], 2⟩
    maxPoolSize := 2
    stepSize := 2
    enableAutoResize := true
    autoResizeScale := 2
    poolResizeBoundary := 4
    isKilled := false
    isConnected := false
    nextConnId := 0 }

/-- C7 witness: the amended theorem applied to a concrete non negative
configuration, a concrete operation sequence and a concrete next
operation. -/
theorem c7_witness :
    ([PoolOp.borrow 5 false].foldl applyOp c7wm0).maxPoolSize ≤
      (applyOp ([PoolOp.borrow 5 false].foldl applyOp c7wm0)
        (PoolOp.ret 0)).maxPoolSize :=
  c7_amended c7wcfg (by decide) (by decide) (by decide) c7wm0 (by decide)
    [PoolOp.borrow 5 false] (PoolOp.ret 0)

end PyMySQLPool
